import Mathlib

/-!
Verification of the EpicEditor core (src/epiceditor/js/epiceditor.js) against
its specification.  The JavaScript instance state is shallowly embedded as a
Lean structure; each public method becomes a pure function on that structure.
Property reads and writes on the plain objects involved (the parsed storage
blob's `files` object, the `available` object of `get`) model the full JS
semantics including the `Object.prototype` chain: a bare `obj[key]` read
finds inherited members such as `toString` (truthy), and an assignment to
the key `__proto__` hits the inherited accessor, which silently ignores
primitive values.  The external markdown converter `marked` and the
engine's string rendering of inherited native functions are arbitrary pure
functions supplied in a `JsExt` record.
-/

namespace EE

/-- Association-list model of a JS object's OWN string-keyed properties.
`aget` is the own-property lookup used as the first step of a JS property
read; the full read including the prototype chain is `jget` below.  The
program only ever builds objects with unique keys. -/
def aget {α : Type} : List (String × α) → String → Option α
  | [], _ => none
  | (k, v) :: rest, key => if k = key then some v else aget rest key

/-- The own-property write step of a JS assignment `obj[key] = v`: update
the own property when present, otherwise create it.  The full JS assignment
including the inherited `__proto__` accessor is `jset`/`jsetObj` below. -/
def aset {α : Type} : List (String × α) → String → α → List (String × α)
  | [], key, v => [(key, v)]
  | (k, w) :: rest, key, v =>
    if k = key then (key, v) :: rest else (k, w) :: aset rest key v

/-- `delete obj[key]` (lines 857, 890): removes the own property when
present; `delete` never touches inherited properties, so it is a no-op for
an absent key even when the key names an inherited member. -/
def adel {α : Type} : List (String × α) → String → List (String × α)
  | [], _ => []
  | (k, v) :: rest, key =>
    if k = key then adel rest key else (k, v) :: adel rest key

theorem aget_aset_self {α : Type} (l : List (String × α)) (k : String) (v : α) :
    aget (aset l k v) k = some v := by
  induction l with
  | nil => simp [aset, aget]
  | cons p rest ih =>
    obtain ⟨k', w⟩ := p
    by_cases h : k' = k <;> simp [aset, h, aget, ih]

theorem aget_aset_ne {α : Type} (l : List (String × α)) (k k' : String) (v : α)
    (h : k' ≠ k) : aget (aset l k v) k' = aget l k' := by
  induction l with
  | nil => simp [aset, aget, h, Ne.symm h]
  | cons p rest ih =>
    obtain ⟨k'', w⟩ := p
    by_cases h2 : k'' = k
    · subst h2
      simp [aset, aget, h, Ne.symm h]
    · simp only [aset, if_neg h2]
      by_cases h3 : k'' = k' <;> simp [aget, h3, ih]

theorem aget_adel_self {α : Type} (l : List (String × α)) (k : String) :
    aget (adel l k) k = none := by
  induction l with
  | nil => simp [adel, aget]
  | cons p rest ih =>
    obtain ⟨k', w⟩ := p
    by_cases h : k' = k <;> simp [adel, h, aget, ih]

theorem aget_adel_ne {α : Type} (l : List (String × α)) (k k' : String)
    (h : k' ≠ k) : aget (adel l k) k' = aget l k' := by
  induction l with
  | nil => simp [adel, aget]
  | cons p rest ih =>
    obtain ⟨k'', w⟩ := p
    by_cases h2 : k'' = k
    · subst h2
      simp [adel, aget, Ne.symm h, ih]
    · by_cases h3 : k'' = k' <;> simp [adel, aget, h2, h3, h, ih]

theorem adel_adel {α : Type} (l : List (String × α)) (k : String) :
    adel (adel l k) k = adel l k := by
  induction l with
  | nil => simp [adel]
  | cons p rest ih =>
    obtain ⟨k', w⟩ := p
    by_cases h : k' = k <;> simp [adel, h, ih]

/-- A value held by an own property of the blob's `files` object after a
`JSON.parse`/`JSON.stringify` round-trip: a JSON string, or a plain JSON
object (`.obj`) — the latter arises when `rename` copies the object
produced by the inherited `__proto__` getter; such a value serializes as an
empty JSON object and coerces to the standard string `[object Object]`
when written into a surface. -/
inductive BVal
  | str (s : String)
  | obj
deriving DecidableEq, Repr

/-- The standard own property names of `Object.prototype` whose inherited
FUNCTION values a bare `obj[key]` read finds (always truthy) on any plain
object: the ES5 members plus the de-facto accessor-management functions
present in the era's browsers. -/
def protoFns : List String :=
  ["constructor", "toString", "toLocaleString", "valueOf", "hasOwnProperty",
   "isPrototypeOf", "propertyIsEnumerable", "__defineGetter__",
   "__defineSetter__", "__lookupGetter__", "__lookupSetter__"]

/-- All inherited `Object.prototype` member names: the function members and
the `__proto__` accessor (whose getter returns the prototype object and
whose setter silently ignores assignments of primitive values). -/
def protoMembers : List String := "__proto__" :: protoFns

/-- The result of a full JS property read `obj[key]` on a plain object:
an own property's value, an inherited function member such as
`Object.prototype.toString`, or the prototype object returned by the
inherited `__proto__` getter.  An absent result models `undefined`. -/
inductive JsRead
  | own (v : BVal)
  | fn (k : String)
  | protoObj
deriving DecidableEq, Repr

/-- Full JS property read including the prototype chain: own properties
shadow inherited ones; otherwise `__proto__` yields the prototype object
and the standard function members yield truthy native functions. -/
def jget (l : List (String × BVal)) (key : String) : Option JsRead :=
  match aget l key with
  | some v => some (.own v)
  | none =>
    if key = "__proto__" then some .protoObj
    else if key ∈ protoFns then some (.fn key)
    else none

/-- JS truthiness of a successful property read: the empty string is the
only falsy value that can appear; objects and functions are truthy. -/
def truthy : JsRead → Bool
  | .own (.str s) => s != ""
  | .own .obj => true
  | .fn _ => true
  | .protoObj => true

/-- Truthiness of a possibly-`undefined` read. -/
def jtruthy (r : Option JsRead) : Bool :=
  match r with
  | none => false
  | some r => truthy r

/-- The string that `_setText` (lines 159-167) actually writes into the
surface for a read value: a string verbatim; a plain object coerces to
`[object Object]` (as does the prototype object); an inherited native
function coerces to its engine-dependent source string `ps k`. -/
def readText (ps : String → String) : JsRead → String
  | .own (.str s) => s
  | .own .obj => "[object Object]"
  | .fn k => ps k
  | .protoObj => "[object Object]"

/-- Full JS assignment `obj[key] = s` of a STRING value followed by the
serialize/parse round-trip: an existing own property is updated; otherwise
the write to `__proto__` reaches the inherited accessor, whose setter
ignores a primitive value (nothing is stored); any other key gets a fresh
own property. -/
def jset (l : List (String × BVal)) (key : String) (s : String) :
    List (String × BVal) :=
  match aget l key with
  | some _ => aset l key (.str s)
  | none => if key = "__proto__" then l else aset l key (.str s)

/-- Full JS assignment `obj[key] = v` of a plain-OBJECT value followed by
the serialize/parse round-trip: as `jset`, except that when the key is
`__proto__` and no own property shadows the accessor, the setter replaces
the object's prototype instead — the own properties (hence the serialized
blob) are unchanged. -/
def jsetObj (l : List (String × BVal)) (key : String) : List (String × BVal) :=
  match aget l key with
  | some _ => aset l key .obj
  | none => if key = "__proto__" then l else aset l key .obj

theorem jset_eq_aset (l : List (String × BVal)) (key s : String)
    (h : key ≠ "__proto__") : jset l key s = aset l key (.str s) := by
  unfold jset
  cases hk : aget l key <;> simp [h]

theorem jsetObj_eq_aset (l : List (String × BVal)) (key : String)
    (h : key ≠ "__proto__") : jsetObj l key = aset l key .obj := by
  unfold jsetObj
  cases hk : aget l key <;> simp [h]

/-- The external environment of an instance: `marked`, the markdown→HTML
converter (a pure function, out of scope per the spec), and `protoStr`, the
engine's string rendering of an inherited `Object.prototype` function
member (e.g. `String(Object.prototype.toString)`), used when such a value
is written into a surface. -/
structure JsExt where
  marked : String → String
  protoStr : String → String

/-- The view-mode flags object `self.eeState` (lines 357-361), in source
field order `{fullscreen, preview, edit}`. -/
structure EEState where
  fullscreen : Bool
  preview : Bool
  edit : Bool
deriving DecidableEq, Repr

/-- Shallow state of one loaded EpicEditor instance, with localStorage
available (the constructor, lines 302-317, guarantees the blob under
`settings.localStorageName` then exists, so `open`'s guard at line 814 is
satisfied).  DOM surfaces are modeled by exactly the observable pieces the
methods read and write. -/
structure Editor where
  /-- `JSON.parse(localStorage[settings.localStorageName]).files`,
  as its own properties (inherited `Object.prototype` members are supplied
  by `jget`) -/
  files : List (String × BVal)
  /-- `settings.file.name`, the active document name (mutated by `open`,
  line 822) -/
  fileName : String
  /-- `settings.file.defaultContent` -/
  defaultContent : String
  /-- the editable surface's text, as read by `_getText` (innerText) and
  written by `_setText` -/
  editorText : String
  /-- the `.value` JS property that `importFile` assigns on the editor body
  element (line 874); the editor is a contentEditable `<body>`, so this
  property is never read back by `_getText`, which reads `innerText` -/
  editorValue : Option String
  /-- `self.previewer.innerHTML` -/
  previewerHTML : String
  eeState : EEState
  /-- `editorIframe.style.display !== 'none'` -/
  editorVisible : Bool
  /-- `previewerIframe.style.display !== 'none'` -/
  previewerVisible : Bool
  /-- whether the wrapper's className carries `epiceditor-edit-mode` (true) or
  `epiceditor-preview-mode` (false); `_replaceClass` (line 138) swaps one
  token for the other and the template starts in edit mode (line 367) -/
  wrapperEditClass : Bool
  /-- the previewer's `link#theme` element as (name attribute, href); `load`
  inserts it (line 454) and `preview` updates only the href (line 751).
  The cache-busting timestamp suffix on href is abstracted away. -/
  themeLink : Option (String × String)
  /-- `settings.basePath + settings.theme.preview` (line 735) -/
  themePathDefault : String
  /-- the `load` closure variable `_isInEdit`, assigned exactly once at
  line 480 (immediately after `eeState` is initialized with `edit: true`)
  and never reassigned afterwards -/
  isInEdit : Bool
  /-- `_elementStates`: the pre-fullscreen display styles of the editor and
  previewer iframes saved by `_goFullscreen` via `_saveStyleState`
  (lines 507-524); `none` models the initial empty object `{}`, on which
  `_exitFullscreen`'s style restore is a no-op -/
  snapshot : Option (Bool × Bool)
  /-- the listener table `this.events` (line 320); handlers are identified
  by numeric ids.  The claims exercise it only at ordinary event names
  (the real `on` would throw on a name colliding with an inherited
  `Object.prototype` member before registering anything, so no such name
  can ever carry a registered handler) -/
  events : List (String × List Nat)
deriving DecidableEq, Repr

/-- `exportHTML` (lines 900-902): `marked(_getText(this.editor))`. -/
def exportHTML (ext : JsExt) (e : Editor) : String := ext.marked e.editorText

/-- `EpicEditor.prototype.open` (lines 810-827).  A name of `""` models a
missing/falsy argument: `name = name || self.settings.file.name`.  The
truthiness test `if(fileObj[name])` at line 816 is a full JS read: an
inherited member (e.g. `toString`) is found truthy and its coercion is
written into the surface instead of the default content. -/
def openDoc (ext : JsExt) (e : Editor) (name : String) : Editor :=
  let name := if name = "" then e.fileName else name
  let e :=
    match jget e.files name with
    | some r =>
      if truthy r then {e with editorText := readText ext.protoStr r}
      else {e with editorText := e.defaultContent}
    | none => {e with editorText := e.defaultContent}
  let e := {e with fileName := name}
  {e with previewerHTML := exportHTML ext e}

/-- `EpicEditor.prototype.save` (lines 835-845).  `""` arguments model the
falsy defaults `file = file || settings.file.name` and
`content = content || _getText(this.editor)`.  The store
`s.files[file] = content` at line 841 is a full JS assignment of a string:
for the key `__proto__` (without an own shadow) the inherited setter
silently drops it. -/
def saveDoc (e : Editor) (file content : String) : Editor :=
  let file := if file = "" then e.fileName else file
  let content := if content = "" then e.editorText else content
  {e with files := jset e.files file content}

/-- `EpicEditor.prototype.remove` (lines 852-861), with the same falsy
default for the name; `delete` only ever removes an own property. -/
def removeDoc (e : Editor) (name : String) : Editor :=
  let name := if name = "" then e.fileName else name
  {e with files := adel e.files name}

/-- The assignment `s.files[newName] = s.files[oldName]` of `rename`
(line 889) followed by `JSON.stringify`: a string value is stored via the
JS assignment `jset`; a plain-object value (an own `.obj` entry, or the
prototype object read through `__proto__`) via `jsetObj`; an inherited
function or `undefined` leaves no serializable own value — any own entry it
overwrote is dropped by `stringify`, and for the key `__proto__` the setter
leaves the own properties untouched — so the net effect is `adel`. -/
def renameAssign (files : List (String × BVal)) (n : String) :
    Option JsRead → List (String × BVal)
  | some (.own (.str c)) => jset files n c
  | some (.own .obj) => jsetObj files n
  | some .protoObj => jsetObj files n
  | _ => adel files n

/-- `EpicEditor.prototype.rename` (lines 886-894):
`s.files[newName] = s.files[oldName]; delete s.files[oldName];` write back,
then `open(newName)`. -/
def renameDoc (ext : JsExt) (e : Editor) (oldName newName : String) :
    Editor :=
  let files2 :=
    adel (renameAssign e.files newName (jget e.files oldName)) oldName
  let e := {e with files := files2}
  openDoc ext e newName

/-- `EpicEditor.prototype.importFile` (lines 871-878):
`self.open(name).get('editor').value = content; self.save().open(name);`.
`get('editor')` is the contentEditable body, so the `.value` assignment sets
a plain JS property that `_getText` never reads. -/
def importFileOp (ext : JsExt) (e : Editor) (name content : String) :
    Editor :=
  let e := openDoc ext e name
  let e := {e with editorValue := some content}
  let e := saveDoc e "" ""
  openDoc ext e name

/-- The `link#theme` update of `preview` (lines 747-752): insert the link if
absent, otherwise point its href at the requested theme when the link's name
attribute differs (the name attribute itself is left untouched). -/
def previewTheme (cur : Option (String × String)) (th : String) :
    Option (String × String) :=
  match cur with
  | none => some (th, th)
  | some nmhref => if nmhref.1 = th then cur else some (nmhref.1, th)

/-- `EpicEditor.prototype.preview` (lines 733-767).  `theme = none` models a
missing argument or the boolean-overload call `preview(true)`, both of which
use `settings.basePath + settings.theme.preview`. -/
def previewOp (ext : JsExt) (e : Editor) (theme : Option String)
    (live : Bool) : Editor :=
  let th :=
    match theme with
    | none => e.themePathDefault
    | some t => if t = "" then e.themePathDefault else t
  let e := {e with wrapperEditClass := false}
  let e := {e with themeLink := previewTheme e.themeLink th}
  let e := {e with previewerHTML := exportHTML ext e}
  if live then e
  else
    {e with editorVisible := false
          , previewerVisible := true
          , eeState := {e.eeState with preview := true, edit := false}}

/-- `EpicEditor.prototype.edit` (lines 773-782). -/
def editOp (e : Editor) : Editor :=
  let e := {e with wrapperEditClass := true}
  let e := {e with eeState := {e.eeState with preview := false, edit := true}}
  {e with editorVisible := true, previewerVisible := false}

/-- The `load` closure `_goFullscreen` (lines 481-555): sets all three flags,
saves the iframes' current styles into `_elementStates` while forcing both
visible, then calls `self.preview(true)`. -/
def goFullscreen (ext : JsExt) (e : Editor) : Editor :=
  let e :=
    {e with eeState := {e.eeState with fullscreen := true
                                     , edit := true, preview := true}}
  let e :=
    {e with snapshot := some (e.editorVisible, e.previewerVisible)
          , editorVisible := true, previewerVisible := true}
  previewOp ext e none true

/-- The `load` closure `_exitFullscreen` (lines 557-575): restores the saved
style states, clears the fullscreen flag, then restores the mode from the
load-time capture `_isInEdit`. -/
def exitFullscreenOp (e : Editor) : Editor :=
  let e :=
    match e.snapshot with
    | some s => {e with editorVisible := s.1, previewerVisible := s.2}
    | none => e
  let e := {e with eeState := {e.eeState with fullscreen := false}}
  if e.isInEdit then {e with eeState := {e.eeState with preview := false}}
  else {e with eeState := {e.eeState with edit := false}}

/-- `EpicEditor.prototype.on` (lines 912-919), for ordinary event names
(for a name colliding with an inherited `Object.prototype` member the real
code would throw at the `.push` on the truthy inherited value, registering
nothing; the claims only evaluate ordinary names). -/
def onOp (e : Editor) (ev : String) (handler : Nat) : Editor :=
  let hs := (aget e.events ev).getD []
  {e with events := aset e.events ev (hs ++ [handler])}

/-- `EpicEditor.prototype.removeListener` (lines 946-958).  With no handler
it resets `this.events[ev] = []`; with a handler but no entry it returns.
Otherwise it dereferences `this._events[ev]` (line 956) — but no code ever
assigns `this._events`, so reading a property of `undefined` raises a
TypeError before anything is removed. -/
def removeListenerOp (e : Editor) (ev : String) (handler : Option Nat) :
    Except String Editor :=
  match handler with
  | none => .ok {e with events := aset e.events ev []}
  | some _ =>
    match aget e.events ev with
    | none => .ok e
    | some _ => .error "TypeError"

/-- The five named surfaces of `EpicEditor.prototype.get` (lines 789-803). -/
inductive Surface
  | document | body | editor | previewer | wrapper
deriving DecidableEq, Repr

/-- What `get(name)` can return besides `null`: one of the five surface
handles, or a truthy value inherited from `Object.prototype` by the
`available` object literal (e.g. `get("toString")` returns
`Object.prototype.toString`). -/
inductive GetResult
  | handle (s : Surface)
  | inherited (k : String)
deriving DecidableEq, Repr

/-- `EpicEditor.prototype.get` (lines 789-803): `available[name]` is a full
JS read on the object literal, so after `load` (when all five handles are
non-null DOM objects, hence truthy) the test `!available[name]` at line 797
fails not only for the five surface names but also for every inherited
`Object.prototype` member name, whose truthy inherited value is returned
instead of `null`.  Total: it never raises. -/
def getSurface (name : String) : Option GetResult :=
  if name = "document" then some (.handle .document)
  else if name = "body" then some (.handle .body)
  else if name = "editor" then some (.handle .editor)
  else if name = "previewer" then some (.handle .previewer)
  else if name = "wrapper" then some (.handle .wrapper)
  else if name ∈ protoMembers then some (.inherited name)
  else none

/-- The constructor's storage setup (lines 302-317), as a function from the
value stored under `settings.localStorageName` (`none` = key absent) to the
value stored after construction.  When the blob is absent it is initialized
with `defaultStorage.files[name] = defaultContent` (a JS assignment, hence
`jset`) and written; when the blob exists, NEITHER branch assigns back to
`localStorage`: the `else if` at line 311 mutates a freshly `JSON.parse`d
copy that is immediately discarded, and the `else` only sets
`this.content` — so the stored bytes are unchanged either way. -/
def constructorStorage (name defaultContent : String)
    (stored : Option (List (String × BVal))) :
    Option (List (String × BVal)) :=
  match stored with
  | none => some (jset [] name defaultContent)
  | some b =>
    if jtruthy (jget b name) then some b
    else some b

/-- A concrete external environment for closed evaluations (identity
markdown converter, a marker rendering for inherited native functions);
all general theorems quantify over the environment. -/
def extId : JsExt :=
  { marked := fun s => s
  , protoStr := fun k => String.append "native " k }

/-- A concrete freshly loaded instance: `load` (lines 330-710) initializes
`eeState` to `{fullscreen:false, preview:false, edit:true}` (lines 357-361),
sets `_isInEdit = self.eeState.edit` = `true` (line 480), hides the previewer
iframe (line 446), inserts `link#theme` (line 454) and opens the configured
document (line 457). -/
def load0 : Editor :=
  { files := [("doc", .str "hello")]
  , fileName := "doc"
  , defaultContent := "dflt"
  , editorText := "hello"
  , editorValue := none
  , previewerHTML := "hello"
  , eeState := ⟨false, false, true⟩
  , editorVisible := true
  , previewerVisible := false
  , wrapperEditClass := true
  , themeLink := some ("p.css", "p.css")
  , themePathDefault := "p.css"
  , isInEdit := true
  , snapshot := none
  , events := [] }

/-- The view-mode transitions as the UI wiring invokes them: the alt+p
shortcut calls `preview()` only when not fullscreen (line 624), the alt+o
shortcut calls `edit()` only when not fullscreen (lines 629-633), alt+f and
the fullscreen button call `_goFullscreen` unconditionally (lines 579, 636),
and `_exitFullscreen` runs only from fullscreen (Escape is guarded by
`self.eeState.fullscreen` at line 642; the native fullscreen-change exit
fires when leaving fullscreen). -/
inductive StepG (ext : JsExt) : Editor → Editor → Prop
  | previewNL (e : Editor) (h : e.eeState.fullscreen = false) :
      StepG ext e (previewOp ext e none false)
  | editStep (e : Editor) (h : e.eeState.fullscreen = false) :
      StepG ext e (editOp e)
  | enterFS (e : Editor) : StepG ext e (goFullscreen ext e)
  | exitFS (e : Editor) (h : e.eeState.fullscreen = true) :
      StepG ext e (exitFullscreenOp e)

/-- Reachability through the guarded transitions. -/
inductive ReachableG (ext : JsExt) (init : Editor) : Editor → Prop
  | refl : ReachableG ext init init
  | step {e e' : Editor} : ReachableG ext init e → StepG ext e e' →
      ReachableG ext init e'

/-- The same four transitions invoked unconditionally, as the public API
allows (`preview`, `edit` are public prototype methods callable in any
state). -/
inductive StepRaw (ext : JsExt) : Editor → Editor → Prop
  | previewNL (e : Editor) : StepRaw ext e (previewOp ext e none false)
  | editStep (e : Editor) : StepRaw ext e (editOp e)
  | enterFS (e : Editor) : StepRaw ext e (goFullscreen ext e)
  | exitFS (e : Editor) : StepRaw ext e (exitFullscreenOp e)

/-- Reachability through the unguarded transitions. -/
inductive ReachableRaw (ext : JsExt) (init : Editor) : Editor → Prop
  | refl : ReachableRaw ext init init
  | step {e e' : Editor} : ReachableRaw ext init e → StepRaw ext e e' →
      ReachableRaw ext init e'

/-- The spec's flag invariant: exactly one of `edit`/`preview` outside
fullscreen, both inside. -/
def flagsInv (s : EEState) : Prop :=
  (s.fullscreen = false → s.edit = !s.preview) ∧
  (s.fullscreen = true → s.edit = true ∧ s.preview = true)

instance (s : EEState) : Decidable (flagsInv s) := by
  unfold flagsInv
  infer_instance

theorem previewOp_live_eeState (ext : JsExt) (e : Editor)
    (theme : Option String) : (previewOp ext e theme true).eeState = e.eeState := rfl

theorem previewOp_live_isInEdit (ext : JsExt) (e : Editor)
    (theme : Option String) : (previewOp ext e theme true).isInEdit = e.isInEdit := rfl

theorem previewOp_nonlive_eeState (ext : JsExt) (e : Editor)
    (theme : Option String) :
    (previewOp ext e theme false).eeState =
      ⟨e.eeState.fullscreen, true, false⟩ := rfl

theorem previewOp_nonlive_isInEdit (ext : JsExt) (e : Editor)
    (theme : Option String) :
    (previewOp ext e theme false).isInEdit = e.isInEdit := rfl

theorem editOp_eeState (e : Editor) :
    (editOp e).eeState = ⟨e.eeState.fullscreen, false, true⟩ := rfl

theorem editOp_isInEdit (e : Editor) : (editOp e).isInEdit = e.isInEdit := rfl

theorem goFullscreen_eeState (ext : JsExt) (e : Editor) :
    (goFullscreen ext e).eeState = ⟨true, true, true⟩ := by
  unfold goFullscreen
  rw [previewOp_live_eeState]

theorem goFullscreen_isInEdit (ext : JsExt) (e : Editor) :
    (goFullscreen ext e).isInEdit = e.isInEdit := by
  unfold goFullscreen
  rw [previewOp_live_isInEdit]

theorem exitFullscreenOp_eeState (e : Editor) :
    (exitFullscreenOp e).eeState =
      if e.isInEdit then ⟨false, false, e.eeState.edit⟩
      else ⟨false, e.eeState.preview, false⟩ := by
  unfold exitFullscreenOp
  cases hs : e.snapshot <;> by_cases h : e.isInEdit <;> simp [h]

theorem exitFullscreenOp_isInEdit (e : Editor) :
    (exitFullscreenOp e).isInEdit = e.isInEdit := by
  unfold exitFullscreenOp
  cases hs : e.snapshot <;> by_cases h : e.isInEdit <;> simp [h]

/-- Auxiliary invariant for guarded reachability: the flag invariant holds
and the load-time capture `_isInEdit` stays `true`. -/
theorem reachableG_inv (ext : JsExt) (e0 e : Editor)
    (h0 : e0.eeState = ⟨false, false, true⟩) (hie : e0.isInEdit = true)
    (hr : ReachableG ext e0 e) : flagsInv e.eeState ∧ e.isInEdit = true := by
  induction hr with
  | refl => rw [h0, hie]; exact ⟨by simp [flagsInv], rfl⟩
  | step _ hs ih =>
    cases hs with
    | previewNL hg =>
      refine ⟨?_, by rw [previewOp_nonlive_isInEdit]; exact ih.2⟩
      rw [previewOp_nonlive_eeState]
      exact ⟨fun _ => rfl, by simp [hg]⟩
    | editStep hg =>
      refine ⟨?_, by rw [editOp_isInEdit]; exact ih.2⟩
      rw [editOp_eeState]
      exact ⟨fun _ => rfl, by simp [hg]⟩
    | enterFS =>
      refine ⟨?_, by rw [goFullscreen_isInEdit]; exact ih.2⟩
      rw [goFullscreen_eeState]
      exact ⟨by simp, by simp⟩
    | exitFS hg =>
      refine ⟨?_, by rw [exitFullscreenOp_isInEdit]; exact ih.2⟩
      rw [exitFullscreenOp_eeState, ih.2]
      have hedit := (ih.1.2 hg).1
      simp [hedit, flagsInv]

/-- Claim C1, counterexample.  (1) The round-trip fails for the empty
content string: `save("a", "")` hits the falsy default
`content = content || _getText(this.editor)` (line 839) and stores the
editor's current text `"x"` instead of `""`, so the subsequent `open("a")`
loads `"x"`.  (2) It also fails for the name `"__proto__"`:
`s.files["__proto__"] = "hi"` (line 841) reaches the inherited accessor,
whose setter drops the primitive value, so nothing is stored, and
`open("__proto__")` finds the truthy prototype object through the inherited
getter and loads its coercion `[object Object]`, never `"hi"`. -/
theorem save_open_roundtrip_counterexample :
    ((openDoc extId (saveDoc {load0 with editorText := "x"} "a" "") "a").editorText
      = "x" ∧
     ¬ ((openDoc extId (saveDoc {load0 with editorText := "x"} "a" "") "a").editorText
      = "")) ∧
    ((openDoc extId (saveDoc {load0 with files := []} "__proto__" "hi")
        "__proto__").editorText = "[object Object]" ∧
     ¬ ((openDoc extId (saveDoc {load0 with files := []} "__proto__" "hi")
        "__proto__").editorText = "hi")) := by
  exact ⟨⟨rfl, by decide⟩, ⟨rfl, by decide⟩⟩

/-- Claim C1 (amended): for every document name `n` and every NONEMPTY
content `c`, provided the effective storage key (which is the active
document name when `n` is empty/falsy) is not `"__proto__"`, `save(n, c)`
followed by `open(n)` leaves the editable surface containing exactly `c`.
An empty `c` is swallowed by the falsy default at line 839; the key
`"__proto__"` is swallowed by the inherited accessor at line 841.  An empty
`n` makes both calls default to the same active document name, so the
round-trip itself still holds there. -/
theorem save_open_roundtrip (ext : JsExt) (e : Editor) (n c : String)
    (hc : c ≠ "")
    (hk : (if n = "" then e.fileName else n) ≠ "__proto__") :
    (openDoc ext (saveDoc e n c) n).editorText = c := by
  unfold saveDoc openDoc
  by_cases hn : n = ""
  · subst hn
    rw [if_pos rfl] at hk
    have hj := jset_eq_aset e.files e.fileName c hk
    simp [hc, hj, jget, aget_aset_self, truthy, readText]
  · rw [if_neg hn] at hk
    have hj := jset_eq_aset e.files n c hk
    simp [hn, hc, hj, jget, aget_aset_self, truthy, readText]

/-- Witness for C1's amended round-trip at a concrete instance. -/
theorem save_open_roundtrip_witness :
    (openDoc extId (saveDoc load0 "a" "hi") "a").editorText = "hi" :=
  save_open_roundtrip extId load0 "a" "hi" (by decide) (by decide)

/-- Claim C2, evaluated at the failing trace `preview(); enterFullscreen();
exitFullscreen()`: the pre-entry mode is Preview
(`eeState = {fullscreen:false, preview:true, edit:false}`), but after
entering and exiting fullscreen the instance is in Edit mode
(`{fullscreen:false, preview:false, edit:true}`).  The closure variable
`_isInEdit` is assigned once at load time (line 480), not inside
`_goFullscreen`, so it is constantly `true` and `_exitFullscreen`
(lines 569-574) always clears `preview` — the recorded-mode restore the
claim (and the code's own comment "Put the editor back in the right state")
describes never happens for Preview mode. -/
theorem exit_fullscreen_restores_edit_not_preview :
    (previewOp extId load0 none false).eeState = ⟨false, true, false⟩ ∧
    (exitFullscreenOp (goFullscreen extId
        (previewOp extId load0 none false))).eeState = ⟨false, false, true⟩ := by
  constructor <;> rfl

/-- Claim C3, counterexample: with the four operations invocable in any
state (as the public API allows), the invariant fails: calling the public
`preview()` while fullscreen yields
`{fullscreen:true, preview:true, edit:false}`, where `edit` and `preview`
are not both true although `fullscreen` is. -/
theorem unguarded_preview_in_fullscreen_breaks_invariant :
    ReachableRaw extId load0
      (previewOp extId (goFullscreen extId load0) none false) ∧
    ¬ flagsInv (previewOp extId (goFullscreen extId load0) none false).eeState := by
  constructor
  · exact .step (.step .refl (.enterFS load0)) (.previewNL _)
  · decide

/-- Claim C3 (amended): the invariant holds for every state reachable from
the initial flags `{fullscreen:false, preview:false, edit:true}` through the
transitions AS THE CODE'S EVENT WIRING INVOKES THEM — `preview()`/`edit()`
only while not fullscreen (guards at lines 624 and 631), `_exitFullscreen`
only from fullscreen (guard at line 642): then `edit XOR preview` holds
whenever `fullscreen` is false and both are true whenever it is true. -/
theorem reachable_flags_invariant (ext : JsExt) (e0 e : Editor)
    (h0 : e0.eeState = ⟨false, false, true⟩) (hie : e0.isInEdit = true)
    (hr : ReachableG ext e0 e) : flagsInv e.eeState :=
  (reachableG_inv ext e0 e h0 hie hr).1

/-- Witness for C3's amended invariant along the concrete guarded trace
`preview(); enterFullscreen(); exitFullscreen()` from the loaded state. -/
theorem reachable_flags_invariant_witness :
    flagsInv (exitFullscreenOp (goFullscreen extId
      (previewOp extId load0 none false))).eeState :=
  reachable_flags_invariant extId load0 _ rfl rfl
    (.step (.step (.step .refl (.previewNL load0 rfl)) (.enterFS _))
      (.exitFS _ (by rw [goFullscreen_eeState])))

/-- Claim C4, evaluated at blob `{"a":"old"}`, editor text `"x"`, call
`importFile("a","new")`: `importFile` leaves `files["a"] = "old"` and the
editable surface containing `"old"`, while `save("a","new")` followed by
`open("a")` leaves `files["a"] = "new"` and the surface containing `"new"`.
The `.get('editor').value = content` assignment (line 874) sets a plain JS
property on the contentEditable body that `_getText` never reads, so the
argument-less `save()` that follows persists the OLD text and the `content`
argument is ignored — contradicting both the claim and the function's own
documented purpose ("The MD to import"). -/
theorem importFile_ignores_new_content :
    (importFileOp extId {load0 with files := [("a", .str "old")], editorText := "x"}
        "a" "new").files = [("a", .str "old")] ∧
    (importFileOp extId {load0 with files := [("a", .str "old")], editorText := "x"}
        "a" "new").editorText = "old" ∧
    (openDoc extId (saveDoc {load0 with files := [("a", .str "old")], editorText := "x"}
        "a" "new") "a").files = [("a", .str "new")] ∧
    (openDoc extId (saveDoc {load0 with files := [("a", .str "old")], editorText := "x"}
        "a" "new") "a").editorText = "new" := by
  refine ⟨rfl, rfl, rfl, rfl⟩

/-- Claim C5, counterexample: (1) renaming a non-existent document creates
NO entry for the new name — `s.files[newName] = undefined` is dropped by
`JSON.stringify` (lines 889-891) — while the claim says an entry with
undefined/empty content is created; (2) when `oldName = newName` the single
entry is deleted outright, while the claim says the blob then maps the new
name to the previous content; (3) for `newName = "__proto__"` the
assignment is swallowed by the inherited accessor and the old entry is then
deleted, so the content is silently lost and the blob ends up empty. -/
theorem rename_missing_source_creates_nothing :
    aget (renameDoc extId {load0 with files := []} "a" "b").files "b" = none ∧
    aget (renameDoc extId
      {load0 with files := [("a", .str "x")]} "a" "a").files "a" = none ∧
    (renameDoc extId
      {load0 with files := [("a", .str "x")]} "a" "__proto__").files = [] := by
  refine ⟨rfl, rfl, rfl⟩

/-- `open` never writes the storage blob. -/
theorem openDoc_files (ext : JsExt) (e : Editor) (name : String) :
    (openDoc ext e name).files = e.files := by
  unfold openDoc
  dsimp only
  split
  · split <;> rfl
  · rfl

/-- `open(name)` sets the active document to `name` (or keeps the current
one when `name` is empty/falsy). -/
theorem openDoc_fileName (ext : JsExt) (e : Editor) (name : String) :
    (openDoc ext e name).fileName = if name = "" then e.fileName else name := rfl

/-- The blob after `rename(o, n)`: the line-889 assignment followed by
deletion of `o`'s own entry. -/
theorem renameDoc_files (ext : JsExt) (e : Editor) (o n : String) :
    (renameDoc ext e o n).files =
      adel (renameAssign e.files n (jget e.files o)) o := by
  unfold renameDoc
  simp [openDoc_files]

/-- `rename(o, n)` ends by opening `n`, which becomes the active document
when `n` is nonempty. -/
theorem renameDoc_fileName (ext : JsExt) (e : Editor) (o n : String)
    (hn : n ≠ "") : (renameDoc ext e o n).fileName = n := by
  unfold renameDoc
  simp [openDoc_fileName, hn]

/-- Claim C5 (amended): for distinct names, with `newName` nonempty and
neither name equal to `"__proto__"` (the inherited accessor swallows the
line-889 assignment for that destination, and reading a missing
`"__proto__"` source yields the prototype object rather than `undefined`),
`rename(oldName, newName)` leaves the blob's entry for `newName` equal to
whatever `oldName` previously mapped to (in particular ABSENT — not
empty-but-present — when `oldName` had no own entry), removes `oldName`'s
entry, and makes `newName` the active document. -/
theorem rename_spec (ext : JsExt) (e : Editor) (o n : String)
    (hon : o ≠ n) (hn : n ≠ "") (ho : o ≠ "__proto__")
    (hn2 : n ≠ "__proto__") :
    (renameDoc ext e o n).fileName = n ∧
    aget (renameDoc ext e o n).files o = none ∧
    aget (renameDoc ext e o n).files n = aget e.files o := by
  have hno : n ≠ o := Ne.symm hon
  refine ⟨renameDoc_fileName ext e o n hn, ?_, ?_⟩
  · rw [renameDoc_files]
    exact aget_adel_self _ o
  · rw [renameDoc_files, aget_adel_ne _ o n hno]
    cases hgo : aget e.files o with
    | some v =>
      cases v with
      | str c =>
        simp [jget, hgo, renameAssign, jset_eq_aset _ _ _ hn2, aget_aset_self]
      | obj =>
        simp [jget, hgo, renameAssign, jsetObj_eq_aset _ _ hn2, aget_aset_self]
    | none =>
      by_cases hf : o ∈ protoFns <;>
        simp [jget, hgo, ho, hf, renameAssign, aget_adel_self]

/-- Witness for C5's amended rename contract at a concrete instance. -/
theorem rename_spec_witness :
    (renameDoc extId load0 "doc" "b").fileName = "b" ∧
    aget (renameDoc extId load0 "doc" "b").files "doc" = none ∧
    aget (renameDoc extId load0 "doc" "b").files "b" = aget load0.files "doc" :=
  rename_spec extId load0 "doc" "b" (by decide) (by decide) (by decide)
    (by decide)

/-- Claim C6, evaluated after `on("save", h)`: `removeListener("save", h)`
raises a TypeError instead of removing the handler, because line 956 reads
`this._events[ev]` and `this._events` is never assigned anywhere (every
other method uses `this.events`), so the property access on `undefined`
throws before any removal; the no-handler form `removeListener("save")`
does succeed and leaves zero handlers registered for the event. -/
theorem removeListener_with_handler_raises :
    removeListenerOp (onOp load0 "save" 0) "save" (some 0)
      = .error "TypeError" ∧
    (removeListenerOp (onOp load0 "save" 0) "save" none).toOption.map
      (fun r => aget r.events "save") = some (some []) := by
  constructor <;> rfl

/-- Claim C7, as stated: live preview leaves the flags, the two surfaces'
visibility, the store, the active name, the editor text AND everything else
except the rendered preview content and the theme link unchanged. -/
def previewLiveFrameClaim (ext : JsExt) (e : Editor)
    (theme : Option String) : Prop :=
  (previewOp ext e theme true).eeState = e.eeState ∧
  (previewOp ext e theme true).editorVisible = e.editorVisible ∧
  (previewOp ext e theme true).previewerVisible = e.previewerVisible ∧
  (previewOp ext e theme true).files = e.files ∧
  (previewOp ext e theme true).fileName = e.fileName ∧
  (previewOp ext e theme true).editorText = e.editorText ∧
  (previewOp ext e theme true).wrapperEditClass = e.wrapperEditClass

/-- Claim C7, counterexample: `preview(theme, true)` is not limited to the
preview content and theme link — line 744 runs unconditionally and rewrites
the wrapper's styling class from edit-mode to preview-mode, so calling it
from the freshly loaded (edit-mode) state changes the wrapper class. -/
theorem preview_live_rewrites_wrapper_class :
    ¬ previewLiveFrameClaim extId load0 none := by
  intro h
  have := h.2.2.2.2.2.2
  simp [previewOp, previewTheme, load0] at this

/-- Claim C7 (amended): `preview(theme, true)` changes neither
`flags.edit`/`flags.preview`/`flags.fullscreen` nor either surface's
visibility, and leaves the store, active name, editor text and the rest of
the instance unchanged; only the preview surface's rendered content, the
theme link, and the wrapper's mode styling class (line 744) change. -/
theorem preview_live_frame (ext : JsExt) (e : Editor)
    (theme : Option String) :
    (previewOp ext e theme true).eeState = e.eeState ∧
    (previewOp ext e theme true).editorVisible = e.editorVisible ∧
    (previewOp ext e theme true).previewerVisible = e.previewerVisible ∧
    (previewOp ext e theme true).files = e.files ∧
    (previewOp ext e theme true).fileName = e.fileName ∧
    (previewOp ext e theme true).editorText = e.editorText ∧
    (previewOp ext e theme true).editorValue = e.editorValue ∧
    (previewOp ext e theme true).defaultContent = e.defaultContent ∧
    (previewOp ext e theme true).isInEdit = e.isInEdit ∧
    (previewOp ext e theme true).snapshot = e.snapshot ∧
    (previewOp ext e theme true).events = e.events ∧
    (previewOp ext e theme true).themePathDefault = e.themePathDefault :=
  ⟨rfl, rfl, rfl, rfl, rfl, rfl, rfl, rfl, rfl, rfl, rfl, rfl⟩

/-- A loaded instance whose blob holds an entry under the empty-string key
(such an entry is creatable through the public API, e.g. `rename(x, "")`
stores under `""` without any defaulting) and whose active document is
`"doc"`. -/
def loadEmptyKey : Editor :=
  {load0 with files := [("", .str "x"), ("doc", .str "y")], fileName := "doc"}

/-- Claim C8, counterexample.  (1) For the empty name, `remove("")` falls
back to the active document (`name = name || settings.file.name`, line 855)
and deletes THAT entry, leaving the blob's entry for `""` untouched — so
`remove(n)` does not delete `n`'s entry for every name `n`.  (2) For an
inherited member name, `remove("toString")` is a no-op and the subsequent
`open("toString")` finds `Object.prototype.toString` truthy at line 816 and
loads that function's string form into the surface, never the configured
default content. -/
theorem remove_empty_name_leaves_entry :
    aget (removeDoc loadEmptyKey "").files "" = some (.str "x") ∧
    aget (removeDoc loadEmptyKey "").files "doc" = none ∧
    (openDoc extId (removeDoc loadEmptyKey "toString") "toString").editorText
      = extId.protoStr "toString" ∧
    ¬ ((openDoc extId (removeDoc loadEmptyKey "toString") "toString").editorText
      = loadEmptyKey.defaultContent) := by
  refine ⟨rfl, rfl, rfl, by decide⟩

/-- Claim C8 (amended): for every NONEMPTY name `n` that does not collide
with an inherited `Object.prototype` member name (an empty/omitted name
refers to the active document instead; for an inherited member name `open`
finds the truthy inherited value rather than the missing own entry),
`remove(n)` deletes `n`'s blob entry without error, a second `remove(n)` is
a no-op (idempotent), and a subsequent `open(n)` loads the configured
default content into the editable surface. -/
theorem remove_open_default (ext : JsExt) (e : Editor) (n : String)
    (hn : n ≠ "") (hp : ¬ n ∈ protoMembers) :
    aget (removeDoc e n).files n = none ∧
    (removeDoc (removeDoc e n) n).files = (removeDoc e n).files ∧
    (openDoc ext (removeDoc e n) n).editorText = e.defaultContent := by
  have hp2 : n ≠ "__proto__" := by
    intro h
    exact hp (h ▸ List.mem_cons_self _ _)
  have hpf : ¬ n ∈ protoFns := fun h => hp (List.mem_cons_of_mem _ h)
  unfold removeDoc openDoc
  simp [hn, aget_adel_self, adel_adel, jget, hp2, hpf]

/-- Witness for C8's amended remove contract at a concrete instance. -/
theorem remove_open_default_witness :
    aget (removeDoc load0 "doc").files "doc" = none ∧
    (removeDoc (removeDoc load0 "doc") "doc").files
      = (removeDoc load0 "doc").files ∧
    (openDoc extId (removeDoc load0 "doc") "doc").editorText
      = load0.defaultContent :=
  remove_open_default extId load0 "doc" (by decide) (by decide)

/-- Claim C9, counterexample: `get` does NOT return an absent value for
every unrecognized name — the `available` object literal inherits from
`Object.prototype`, so `available["toString"]`, `available["constructor"]`
and `available["__proto__"]` are truthy and line 797's `!available[name]`
test fails: the inherited value is returned instead of `null`. -/
theorem get_inherited_member_not_null :
    getSurface "toString" = some (.inherited "toString") ∧
    getSurface "constructor" = some (.inherited "constructor") ∧
    getSurface "__proto__" = some (.inherited "__proto__") ∧
    ¬ (getSurface "toString" = none) := by
  refine ⟨by decide, by decide, by decide, by decide⟩

/-- Claim C9 (amended): `get(name)` returns the corresponding handle for
each of the five recognized surface names; for every other string that does
not collide with an inherited `Object.prototype` member name it returns
`null`; for a colliding name it returns the truthy inherited value instead
of `null`; being a total function of the name, it never raises. -/
theorem get_surface_spec (name : String) :
    (¬ name ∈ ["document", "body", "editor", "previewer", "wrapper"] →
      ¬ name ∈ protoMembers → getSurface name = none) ∧
    getSurface "document" = some (.handle .document) ∧
    getSurface "body" = some (.handle .body) ∧
    getSurface "editor" = some (.handle .editor) ∧
    getSurface "previewer" = some (.handle .previewer) ∧
    getSurface "wrapper" = some (.handle .wrapper) := by
  refine ⟨fun h1 h2 => ?_, by decide, by decide, by decide, by decide,
    by decide⟩
  simp only [List.mem_cons, List.not_mem_nil, or_false, not_or] at h1
  obtain ⟨d1, d2, d3, d4, d5⟩ := h1
  simp [getSurface, d1, d2, d3, d4, d5, h2]

/-- Witness for C9's amended contract at the concrete name `"toolbar"`,
which is neither a surface name nor an inherited member name. -/
theorem get_surface_spec_witness : getSurface "toolbar" = none :=
  (get_surface_spec "toolbar").1 (by decide) (by decide)

set_option linter.unusedVariables false in
/-- Claim C10: when the blob under `settings.localStorageName` already
exists but has no entry for the configured document name, the constructor
leaves the stored blob unchanged — the `else if` branch (lines 311-313)
mutates a freshly parsed copy that is discarded, and no assignment to
`localStorage` happens outside the blob-absent branch, so the stored bytes
are untouched and the default content is not persisted under that name. -/
theorem constructor_preserves_existing_blob (name dflt : String)
    (b : List (String × BVal)) (h : aget b name = none) :
    constructorStorage name dflt (some b) = some b := by
  simp [constructorStorage]

/-- Witness for C10 at a concrete blob lacking the configured name. -/
theorem constructor_preserves_existing_blob_witness :
    constructorStorage "doc" "d" (some [("other", .str "x")])
      = some [("other", .str "x")] :=
  constructor_preserves_existing_blob "doc" "d" [("other", .str "x")]
    (by decide)

end EE
